import Mathlib

/-
Verification of the `nih_plug_iced` application driver loop, action
dispatcher, subscription recipe, editor wrapper, and resize-handle widget.

The definitions below are a shallow embedding of the Rust sources:
  * `src/iced_baseview/application.rs` — `run_instance`, `update`,
    `run_action`, `build_user_interface`
  * `src/wrapper.rs` — `IcedEditorWrapperApplication`,
    `ParameterUpdatesRecipe`
  * `src/widgets/resize_handle.rs` — `ResizeHandle`
External collaborators (the widget tree, compositor, window state, input
translator, user application) are modelled as records of functions, so the
theorems quantify over every behaviour those collaborators may exhibit.
-/

namespace NihPlugIced

/- ## Widget operations and their `Outcome` chaining (`run_action`, `Action::Widget`)

A widget operation, as consumed by the dispatcher's chaining loop, is
characterised by the outcome its `finish()` call reports after one pass of
`interface.operate`: done with nothing (`Outcome::None`), done with a unit
value (`Outcome::Some(())`), or a chained continuation (`Outcome::Chain`). -/
inductive Operation where
  | outcomeNone : Operation
  | outcomeSome : Operation
  | outcomeChain (next : Operation) : Operation
deriving DecidableEq, Repr

/-- Number of `Outcome::Chain` links in an operation's continuation chain. -/
def chainLinks : Operation → Nat
  | .outcomeNone => 0
  | .outcomeSome => 0
  | .outcomeChain next => chainLinks next + 1

/-- Whether an operation's finish outcome is terminal (`None` or `Some`). -/
def Operation.isTerminal : Operation → Bool
  | .outcomeNone => true
  | .outcomeSome => true
  | .outcomeChain _ => false

/-- The dispatcher's `while let Some(mut operation) = current_operation.take()`
loop over `Action::Widget`: each iteration calls `interface.operate` once and
then inspects `operation.finish()`; `Outcome::Chain(next)` feeds `next` back
into the loop. Returns the number of `operate` calls performed together with
the operation whose outcome ended the loop. -/
def runWidgetOperation : Operation → Nat × Operation
  | .outcomeNone => (1, .outcomeNone)
  | .outcomeSome => (1, .outcomeSome)
  | .outcomeChain next =>
      let r := runWidgetOperation next
      (r.1 + 1, r.2)

/- ## The parameter-updates subscription recipe (`src/wrapper.rs`)

`Hasher` is modelled as the list of data tokens written into it; the only
token the recipe ever writes is the compile-time constant
`TypeId::of::<ParameterUpdatesRecipe>()`, modelled as a fixed natural. -/
structure Hasher where
  written : List Nat
deriving DecidableEq, Repr

/-- The compile-time constant `std::any::TypeId::of::<ParameterUpdatesRecipe>()`. -/
def recipeTypeId : Nat := 0

/-- `ParameterUpdatesRecipe { receiver: Arc<channel::Receiver<ParameterUpdate>> }`;
the receiver is abstracted by an arbitrary runtime-state type `R`. -/
structure ParameterUpdatesRecipe (R : Type) where
  receiver : R

/-- `Recipe::hash` for `ParameterUpdatesRecipe`: writes only
`TypeId::of::<Self>()` into the hasher, ignoring the receiver. -/
def ParameterUpdatesRecipe.hash {R : Type} (_self : ParameterUpdatesRecipe R)
    (state : Hasher) : Hasher :=
  { written := state.written ++ [recipeTypeId] }

/-- The subscription identity derived from the recipe's hash (the data the
recipe writes into a fresh hasher). -/
def recipeIdentity {R : Type} (r : ParameterUpdatesRecipe R) : List Nat :=
  (r.hash { written := [] }).written

/-- Modelled from the spec: the Subscription Tracker's reconciliation (§4.3)
is not part of this repository (it lives in the `iced_futures` runtime).
Given the previous cycle's set of live subscription identities and the newly
declared set, it cancels identities absent from the new set, starts unseen
identities, and keeps identities present in both sets running unchanged.
Returns `(cancelled, started, kept)`. -/
def reconcile (old new : List (List Nat)) :
    List (List Nat) × List (List Nat) × List (List Nat) :=
  (old.filter (fun i => !(new.contains i)),
   new.filter (fun i => !(old.contains i)),
   new.filter (fun i => old.contains i))

/- ## The editor wrapper (`src/wrapper.rs`, `IcedEditorWrapperApplication`) -/

/-- An `iced` `Task`: either `Task::none()` or an opaque unit of background
work producing messages of type `M`. `map` relabels the produced messages. -/
inductive MTask (M : Type) where
  | none : MTask M
  | task (payload : List M) : MTask M
deriving DecidableEq, Repr

def MTask.map {M N : Type} (f : M → N) : MTask M → MTask N
  | .none => .none
  | .task p => .task (p.map f)

/-- The wrapper's `Message<E>`: either a wrapped editor message or the
parameter-update notification. -/
inductive WMessage (Em : Type) where
  | editorMessage (m : Em) : WMessage Em
  | parameterUpdate : WMessage Em
deriving DecidableEq, Repr

/-- `IcedEditorWrapperApplication<E>`: the wrapped editor state plus the
(opaque handle to the) parameter-updates receiver. -/
structure IcedEditorWrapperApplication (Est : Type) where
  editor : Est
  parameter_updates_receiver : Nat

/-- `IcedEditorWrapperApplication::update`. The inner editor's `update`
function is a parameter (`E::Message` handling is the editor's own code):
`EditorMessage(m)` is forwarded to it and the resulting task mapped back
through `Message::EditorMessage`; `ParameterUpdate` returns `Task::none()`. -/
def IcedEditorWrapperApplication.update {Est Em : Type}
    (editorUpdate : Est → Em → Est × MTask Em)
    (self : IcedEditorWrapperApplication Est) :
    WMessage Em → IcedEditorWrapperApplication Est × MTask (WMessage Em)
  | .editorMessage m =>
      let r := editorUpdate self.editor m
      ({ self with editor := r.1 }, r.2.map .editorMessage)
  | .parameterUpdate => (self, .none)

/- ## The resize-handle widget (`src/widgets/resize_handle.rs`)

Scalar coordinates (`f32` in the source) are modelled as rationals; the
source's `f32::max` is `max` on `ℚ`. -/

structure RPoint where
  x : ℚ
  y : ℚ
deriving DecidableEq, Repr

structure RSize where
  width : ℚ
  height : ℚ
deriving DecidableEq, Repr

structure RColor where
  r : ℚ
  g : ℚ
  b : ℚ
  a : ℚ
deriving DecidableEq, Repr

structure RRect where
  x : ℚ
  y : ℚ
  width : ℚ
  height : ℚ
deriving DecidableEq, Repr

/-- `Rectangle::contains` for the hit test on button press. -/
def RRect.contains (bounds : RRect) (p : RPoint) : Bool :=
  decide (bounds.x ≤ p.x) && decide (p.x < bounds.x + bounds.width) &&
  decide (bounds.y ≤ p.y) && decide (p.y < bounds.y + bounds.height)

/-- The widget's internal drag-tracking `State`. -/
structure RHState where
  drag_active : Bool
  start_size : RSize
  last_cursor : RPoint
  accumulated_size : RSize
  last_emitted_size : RSize
deriving DecidableEq, Repr

/-- The mouse events distinguished by `ResizeHandle::update`; every other
event falls into the wildcard arm. -/
inductive RHEvent where
  | leftPressed : RHEvent
  | leftReleased : RHEvent
  | cursorMoved : RHEvent
  | otherEvent : RHEvent
deriving DecidableEq, Repr

/-- `ResizeHandle<Message>` configuration. The `on_resize` callback is kept
outside this record: `update` below returns the list of sizes published, and
the widget's emitted messages are exactly `on_resize` applied to them. -/
structure ResizeHandle where
  size : ℚ
  color : RColor
  min_width : ℚ
  min_height : ℚ
  current_size : RSize
deriving DecidableEq, Repr

/-- `ResizeHandle::new`: default handle size 20, semi-transparent gray,
minimum window size 400 × 300. -/
def ResizeHandle.new (current_size : RSize) : ResizeHandle :=
  { size := 20
    color := { r := 1/2, g := 1/2, b := 1/2, a := 1/2 }
    min_width := 400
    min_height := 300
    current_size := current_size }

/-- `ResizeHandle::min_size` builder. -/
def ResizeHandle.min_size (self : ResizeHandle) (width height : ℚ) : ResizeHandle :=
  { self with min_width := width, min_height := height }

/-- `ResizeHandle::update` (`Widget::update`): mutates the drag state and
returns it together with the list of sizes published through the `on_resize`
callback (each published size `s` becomes the message `(on_resize)(s)`). -/
def ResizeHandle.update (self : ResizeHandle) (state : RHState) (event : RHEvent)
    (cursor : Option RPoint) (bounds : RRect) : RHState × List RSize :=
  match event with
  | .leftPressed =>
      match cursor with
      | some cursor_position =>
          if bounds.contains cursor_position then
            ({ drag_active := true
               start_size := self.current_size
               last_cursor := cursor_position
               accumulated_size := self.current_size
               last_emitted_size := self.current_size }, [])
          else
            (state, [])
      | none => (state, [])
  | .leftReleased =>
      if state.drag_active then
        ({ state with drag_active := false }, [])
      else
        (state, [])
  | .cursorMoved =>
      if state.drag_active then
        match cursor with
        | some cursor_position =>
            let delta : RPoint :=
              { x := cursor_position.x - state.last_cursor.x
                y := cursor_position.y - state.last_cursor.y }
            let accumulated : RSize :=
              { width := max (state.accumulated_size.width + delta.x) self.min_width
                height := max (state.accumulated_size.height + delta.y) self.min_height }
            let state' : RHState :=
              { state with
                  last_cursor := cursor_position
                  accumulated_size := accumulated }
            if accumulated ≠ state.last_emitted_size then
              ({ state' with last_emitted_size := accumulated }, [accumulated])
            else
              (state', [])
        | none => (state, [])
      else
        (state, [])
  | .otherEvent => (state, [])

/- ## The application driver loop (`src/iced_baseview/application.rs`)

The loop body of `run_instance` is embedded as a step function over an
explicit `DriverState`. The external collaborators — the user application
(`update`/`subscription`), the widget tree (`UserInterface`), the window
state (`State`), the compositor, and the input translator — are a record of
functions (`World`), so every theorem quantifies over their behaviour. Side
effects other than driver-state mutation are recorded in a `Trace`. -/

/-- Per-event consumption status reported by `UserInterface::update`. -/
inductive IcedEventStatus where
  | ignored : IcedEventStatus
  | captured : IcedEventStatus
deriving DecidableEq, Repr

/-- Result of `compositor.present`: success, the unrecoverable
`SurfaceError::OutOfMemory`, or any other (transient) surface error. -/
inductive PresentResult where
  | ok : PresentResult
  | outOfMemory : PresentResult
  | otherError : PresentResult
deriving DecidableEq, Repr

/-- The `WindowSubs` callback slots the application may register. -/
structure WindowSubs (M Sz : Type) where
  on_frame : Option (Unit → Option M)
  on_window_will_close : Option (Unit → Option M)
  on_resize : Option (Sz → Option M)

/-- Result of `UserInterface::update`: the mutated tree, whether the
interface reported itself `State::Outdated`, one consumption status per
dispatched event, and the messages the widgets pushed onto the queue. -/
structure UiResult (T M : Type) where
  tree : T
  outdated : Bool
  statuses : List IcedEventStatus
  pushed : List M

/-- The external collaborators of the driver loop, as arbitrary functions:
`A` application state, `M` message, `E` translated (iced) input event,
`RE` raw (baseview) host event, `T` widget tree, `Ca` layout cache,
`W` window `State`, `Sz` resize size. -/
structure World (A M E RE T Ca W Sz : Type) where
  /-- `application.update(message)` (the returned task goes to the executor,
  which is outside the driver state). -/
  appUpdate : A → M → A
  /-- `state.synchronize(&application)`. -/
  synchronize : W → A → W
  /-- `user_interface.into_cache()`. -/
  intoCache : T → Ca
  /-- `build_user_interface(&application, cache, &mut renderer,
  state.logical_size(), window_id)`. -/
  build : A → W → Ca → T
  /-- `user_interface.update(&events, state.cursor(), &mut renderer,
  &mut clipboard, &mut messages)`. -/
  uiUpdate : T → W → List E → UiResult T M
  /-- `user_interface.relayout(state.logical_size(), &mut renderer)`. -/
  relayout : T → W → T
  /-- `compositor.present(&mut renderer, &mut surface, state.viewport(),
  state.background_color(), ...)`. -/
  present : T → W → PresentResult
  /-- `state.update(&event)` for a raw host event. -/
  stateUpdate : W → RE → W
  /-- `conversion::baseview_to_iced_events` (the translated events appended
  to the event queue). -/
  translate : W → RE → List E
  /-- Whether an iced event is `window::Event::Resized(size)`. -/
  resizeOf : E → Option Sz
  /-- `state.viewport_version()`. -/
  viewportVersion : W → Nat
  /-- `state.physical_size()` as (width, height). -/
  physicalSize : W → Nat × Nat
  /-- `application.subscription(&mut window_subs)` re-registering the window
  callback slots during an update cycle. -/
  newSubs : A → WindowSubs M Sz → WindowSubs M Sz

/-- The mutable state owned by `run_instance` across loop iterations. -/
structure DriverState (A M E T W Sz : Type) where
  app : A
  win : W
  tree : T
  subs : WindowSubs M Sz
  events : List E
  messages : List M
  did_process_event : Bool
  needs_update : Bool
  redraw_requested : Bool
  /-- The `viewport_version` local: the version of the last presented frame. -/
  viewport_version : Nat

/-- Best-effort window-control requests sent through the `WindowQueue`. -/
inductive WindowOp (Sz : Type) where
  | close : WindowOp Sz
  | resize (sz : Sz) : WindowOp Sz
  | focus : WindowOp Sz
deriving DecidableEq, Repr

/-- Observable effects of one loop iteration, beyond driver-state mutation. -/
structure Trace (M E Sz : Type) where
  /-- One entry per update cycle run (the helper `update` in
  `application.rs`); the entry lists the messages drained into
  `application.update`. -/
  updateCycles : List (List M) := []
  /-- The `(event, status)` pairs broadcast to the subscription runtime's
  interaction channel, in broadcast order. -/
  broadcasts : List (E × IcedEventStatus) := []
  /-- Calls to `build_user_interface` (tree rebuilds). -/
  rebuilds : Nat := 0
  /-- Calls to `user_interface.relayout`. -/
  relayouts : Nat := 0
  /-- Calls to `compositor.configure_surface`. -/
  configures : Nat := 0
  /-- Calls to `compositor.present`. -/
  presents : Nat := 0
  /-- Calls to `interface.operate` from the widget-operation chaining loop. -/
  operateCalls : Nat := 0
  /-- Window-control requests forwarded to the host `WindowQueue`. -/
  windowOps : List (WindowOp Sz) := []
  /-- Clipboard read targets served through one-shot channels. -/
  clipboardReads : List Nat := []
  /-- Clipboard writes performed, as (target, contents). -/
  clipboardWrites : List (Nat × String) := []
  /-- Fonts forwarded to `compositor.load_font`. -/
  fontLoads : Nat := 0
  /-- The synchronous `EventStatus` acknowledgement sent back to the host
  (`some false` = `Ignored`), when one was sent. -/
  eventStatusReply : Option Bool := none

/-- `iced_runtime::Action`, restricted to the payload shape the dispatcher
inspects (clipboard targets and system queries are abstracted to naturals,
font bytes to a byte list). -/
inductive Action (M Sz : Type) where
  | output (message : M) : Action M Sz
  | clipboardRead (target : Nat) : Action M Sz
  | clipboardWrite (target : Nat) (contents : String) : Action M Sz
  | windowClose : Action M Sz
  | windowResize (size : Sz) : Action M Sz
  | windowGainFocus : Action M Sz
  | windowOther : Action M Sz
  | systemGetInformation : Action M Sz
  | widget (op : Operation) : Action M Sz
  | loadFont (bytes : List Nat) : Action M Sz
  | exit : Action M Sz
  | reload : Action M Sz

/-- The five kinds of `RuntimeEvent` the loop receives. -/
inductive RuntimeEvent (M RE Sz : Type) where
  | mainEventsCleared : RuntimeEvent M RE Sz
  | userEvent (action : Action M Sz) : RuntimeEvent M RE Sz
  | redrawRequested : RuntimeEvent M RE Sz
  | baseview (event : RE) (do_send_status : Bool) : RuntimeEvent M RE Sz
  | willClose : RuntimeEvent M RE Sz

/-- Outcome of one loop iteration: keep looping, `break` out of the loop, or
abort the process (`panic!` / `todo!`). -/
inductive StepResult (σ : Type) where
  | running (st : σ) : StepResult σ
  | terminated (st : σ) : StepResult σ
  | panicked : StepResult σ

/-- Whether a step result left the loop (reached the code after the loop). -/
def StepResult.isTerminated {σ : Type} : StepResult σ → Bool
  | .terminated _ => true
  | _ => false

/-- The driver state a step result carries, when the process did not abort. -/
def StepResult.stateOf {σ : Type} : StepResult σ → Option σ
  | .running st => some st
  | .terminated st => some st
  | .panicked => none

section Driver

variable {A M E RE T Ca W Sz : Type}

/-- The message queue right after the `on_frame` callback ran at the top of
`MainEventsCleared` (the callback's message, if any, is pushed). -/
def messagesAfterFrameTick (st : DriverState A M E T W Sz) : List M :=
  match st.subs.on_frame with
  | none => st.messages
  | some callback =>
      match callback () with
      | none => st.messages
      | some m => st.messages ++ [m]

/-- The helper `update` in `application.rs`: drain every queued message
through `application.update` in order (feeding each returned task to the
executor), then recompute the subscription (re-registering the window
callback slots) and re-track it. Returns the new application state and the
new callback slots. -/
def updateCycle (w : World A M E RE T Ca W Sz) (app : A)
    (subs : WindowSubs M Sz) (messages : List M) : A × WindowSubs M Sz :=
  let app := messages.foldl w.appUpdate app
  (app, w.newSubs app subs)

/-- The resize-callback messages pushed while draining the
`(event, status)` pairs: for each event that is `window::Event::Resized`,
the registered `on_resize` callback may push a message. -/
def resizeMessages (w : World A M E RE T Ca W Sz) (subs : WindowSubs M Sz)
    (events : List E) : List M :=
  events.foldl
    (fun acc e =>
      match w.resizeOf e with
      | some sz =>
          match subs.on_resize with
          | some callback =>
              match callback sz with
              | some m => acc ++ [m]
              | none => acc
          | none => acc
      | none => acc)
    []

/-- The `RuntimeEvent::MainEventsCleared` arm of the loop. -/
def frameTick (w : World A M E RE T Ca W Sz) (always_redraw : Bool)
    (st : DriverState A M E T W Sz) :
    DriverState A M E T W Sz × Trace M E Sz :=
  -- Run the `on_frame` callback and push its message.
  let messages := messagesAfterFrameTick st
  -- Idle skip: nothing processed, no events, no messages, no forced redraw.
  if !st.did_process_event && st.events.isEmpty && messages.isEmpty
      && !always_redraw then
    ({ st with messages := messages }, {})
  else
    let st := { st with messages := messages, did_process_event := false }
    -- Dispatch the queued events to the widget tree in one batch.
    let dispatched :=
      if st.events.isEmpty then
        (st, ([] : List (E × IcedEventStatus)), st.needs_update)
      else
        let r := w.uiUpdate st.tree st.win st.events
        let needs_update := st.needs_update || r.outdated
        let pairs := st.events.zip r.statuses
        ({ st with
             tree := r.tree
             events := []
             messages := st.messages ++ r.pushed ++
               resizeMessages w st.subs st.events },
         pairs, needs_update)
    let st := dispatched.1
    let broadcasts := dispatched.2.1
    -- The dispatch may have pushed new messages onto the queue.
    let needs_update := dispatched.2.2 || !st.messages.isEmpty || always_redraw
    if needs_update then
      let cache := w.intoCache st.tree
      let consumed := st.messages
      let cycled := updateCycle w st.app st.subs consumed
      let app := cycled.1
      let win := w.synchronize st.win app
      let tree := w.build app win cache
      ({ st with
           app := app
           win := win
           tree := tree
           subs := cycled.2
           messages := []
           needs_update := false
           redraw_requested := true },
       { updateCycles := [consumed], broadcasts := broadcasts, rebuilds := 1 })
    else
      ({ st with needs_update := false, redraw_requested := true },
       { broadcasts := broadcasts })

/-- The `RuntimeEvent::WillClose` arm: if a close callback is registered,
push its message (when `Some`) and run one final update cycle (user update,
window-state resynchronization, tree rebuild) before the loop breaks. -/
def willCloseStep (w : World A M E RE T Ca W Sz)
    (st : DriverState A M E T W Sz) :
    DriverState A M E T W Sz × Trace M E Sz :=
  match st.subs.on_window_will_close with
  | none => (st, {})
  | some callback =>
      let messages :=
        match callback () with
        | some m => st.messages ++ [m]
        | none => st.messages
      let cache := w.intoCache st.tree
      let cycled := updateCycle w st.app st.subs messages
      let app := cycled.1
      let win := w.synchronize st.win app
      let tree := w.build app win cache
      ({ st with
           app := app
           win := win
           tree := tree
           subs := cycled.2
           messages := [] },
       { updateCycles := [messages], rebuilds := 1 })

/-- The `RuntimeEvent::RedrawRequested` arm. Returns `none` when the process
aborts (`panic!` on `SurfaceError::OutOfMemory`). -/
def presentStep (w : World A M E RE T Ca W Sz) (always_redraw : Bool)
    (st : DriverState A M E T W Sz) :
    Option (DriverState A M E T W Sz × Trace M E Sz) :=
  if !(st.redraw_requested || always_redraw) then
    some (st, {})
  else
    let physical := w.physicalSize st.win
    if physical.1 = 0 || physical.2 = 0 then
      some (st, {})
    else
      let current_viewport_version := w.viewportVersion st.win
      let reconfigured :=
        if st.viewport_version ≠ current_viewport_version then
          ({ st with
               tree := w.relayout st.tree st.win
               viewport_version := current_viewport_version },
           ({ relayouts := 1, configures := 1 } : Trace M E Sz))
        else
          (st, {})
      let st := reconfigured.1
      let tr := reconfigured.2
      match w.present st.tree st.win with
      | .ok => some (st, { tr with presents := 1 })
      | .outOfMemory => none
      | .otherError =>
          some ({ st with redraw_requested := true }, { tr with presents := 1 })

/-- The `RuntimeEvent::Baseview` arm: update the window state from the raw
event, translate it, and append the translated events to the queue; if the
whole queue is still empty, acknowledge the host with `Ignored` (when asked)
and do nothing else, otherwise mark that an event was processed. -/
def baseviewStep (w : World A M E RE T Ca W Sz)
    (st : DriverState A M E T W Sz) (event : RE) (do_send_status : Bool) :
    DriverState A M E T W Sz × Trace M E Sz :=
  let win := w.stateUpdate st.win event
  let events := st.events ++ w.translate win event
  if events.isEmpty then
    ({ st with win := win },
     { eventStatusReply := if do_send_status then some false else none })
  else
    ({ st with win := win, events := events, did_process_event := true }, {})

/-- `run_action`: the Action Dispatcher. Returns `none` when the dispatcher
aborts the process (`Action::Reload` is `todo!()`). -/
def runAction (st : DriverState A M E T W Sz) (action : Action M Sz) :
    Option (DriverState A M E T W Sz × Trace M E Sz) :=
  match action with
  | .output message => some ({ st with messages := st.messages ++ [message] }, {})
  | .clipboardRead target => some (st, { clipboardReads := [target] })
  | .clipboardWrite target contents =>
      some (st, { clipboardWrites := [(target, contents)] })
  | .windowClose => some (st, { windowOps := [.close] })
  | .windowResize size => some (st, { windowOps := [.resize size] })
  | .windowGainFocus => some (st, { windowOps := [.focus] })
  | .windowOther => some (st, {})
  | .systemGetInformation => some (st, {})
  | .widget op => some (st, { operateCalls := (runWidgetOperation op).1 })
  | .loadFont _ => some (st, { fontLoads := 1 })
  | .exit => some (st, { windowOps := [.close] })
  | .reload => none

/-- One iteration of the `run_instance` loop on a received `RuntimeEvent`. -/
def step (w : World A M E RE T Ca W Sz) (always_redraw : Bool)
    (st : DriverState A M E T W Sz) :
    RuntimeEvent M RE Sz → StepResult (DriverState A M E T W Sz) × Trace M E Sz
  | .mainEventsCleared =>
      let r := frameTick w always_redraw st
      (.running r.1, r.2)
  | .userEvent action =>
      match runAction st action with
      | some r => (.running r.1, r.2)
      | none => (.panicked, {})
  | .redrawRequested =>
      match presentStep w always_redraw st with
      | some r => (.running r.1, r.2)
      | none => (.panicked, {})
  | .baseview event do_send_status =>
      let r := baseviewStep w st event do_send_status
      (.running r.1, r.2)
  | .willClose =>
      let r := willCloseStep w st
      (.terminated r.1, r.2)

end Driver

/- ## Concrete fixtures

A concrete instantiation of the collaborators (all abstract types are `Nat`)
used to evaluate the driver on explicit inputs. -/

/-- Callback slots with nothing registered. -/
def exSubs : WindowSubs Nat Nat :=
  { on_frame := none, on_window_will_close := none, on_resize := none }

/-- A concrete idle driver state. -/
def exState : DriverState Nat Nat Nat Nat Nat Nat :=
  { app := 0
    win := 0
    tree := 0
    subs := exSubs
    events := []
    messages := []
    did_process_event := false
    needs_update := false
    redraw_requested := false
    viewport_version := 0 }

/-- A concrete collaborator world over `Nat`. -/
def exWorld : World Nat Nat Nat Nat Nat Nat Nat Nat :=
  { appUpdate := fun a m => a + m
    synchronize := fun w _ => w
    intoCache := fun t => t
    build := fun a _ c => a + c
    uiUpdate := fun t _ es =>
      { tree := t
        outdated := false
        statuses := es.map (fun _ => IcedEventStatus.ignored)
        pushed := [] }
    relayout := fun t _ => t + 1
    present := fun _ _ => .ok
    stateUpdate := fun w _ => w
    translate := fun _ _ => []
    resizeOf := fun _ => none
    viewportVersion := fun w => w
    physicalSize := fun _ => (1, 1)
    newSubs := fun _ s => s }

/-- Callback slots with a close callback registered that returns `None`. -/
def exCloseSubs : WindowSubs Nat Nat :=
  { on_frame := none, on_window_will_close := some (fun _ => none), on_resize := none }

/-- A driver state whose registered close callback returns `None`. -/
def exCloseState : DriverState Nat Nat Nat Nat Nat Nat :=
  { exState with subs := exCloseSubs }

/-- A state ready to present: redraw requested, window-state viewport version
`5` differing from the last presented version `0`. -/
def exPresentState : DriverState Nat Nat Nat Nat Nat Nat :=
  { exState with redraw_requested := true, win := 5 }

/-- The world whose compositor always reports `OutOfMemory` on present. -/
def exWorldOOM : World Nat Nat Nat Nat Nat Nat Nat Nat :=
  { exWorld with present := fun _ _ => .outOfMemory }

/-- The world whose compositor always reports a transient surface error. -/
def exWorldErr : World Nat Nat Nat Nat Nat Nat Nat Nat :=
  { exWorld with present := fun _ _ => .otherError }

/-- A driver state with two queued input events. -/
def exEventsState : DriverState Nat Nat Nat Nat Nat Nat :=
  { exState with events := [7, 8], did_process_event := true }

/- ## Theorems -/

/-- C7: for every widget operation whose `Outcome::Chain` continuations form
a finite chain of `n` links, the dispatcher's chaining loop terminates after
at most `n + 1` calls to the tree's `operate` entry point, ending when an
`Outcome::None` or `Outcome::Some` outcome is reached; and `run_action` on
`Action::Widget` performs exactly that many `operate` calls. -/
theorem widget_operation_chain_terminates (op : Operation) :
    (runWidgetOperation op).1 ≤ chainLinks op + 1
    ∧ (runWidgetOperation op).2.isTerminal = true
    ∧ ∀ (st : DriverState Nat Nat Nat Nat Nat Nat),
        runAction st (Action.widget op) =
          some (st, { operateCalls := (runWidgetOperation op).1 }) := by
  refine ⟨?_, ?_, fun st => rfl⟩
  · induction op with
    | outcomeNone => simp [runWidgetOperation, chainLinks]
    | outcomeSome => simp [runWidgetOperation, chainLinks]
    | outcomeChain next ih =>
        simp only [runWidgetOperation, chainLinks]
        omega
  · induction op with
    | outcomeNone => rfl
    | outcomeSome => rfl
    | outcomeChain next ih =>
        simpa only [runWidgetOperation] using ih

/-- C8: the identity hash of the wrapper's parameter-updates subscription
recipe depends only on the recipe's type: for any two receiver states,
`ParameterUpdatesRecipe::hash` writes the same data into the hasher, the
derived subscription identities coincide, and under the tracker's
reconciliation a redeclared identity is kept running and never cancelled. -/
theorem parameter_updates_recipe_hash_stable {R : Type}
    (r1 r2 : ParameterUpdatesRecipe R) (s : Hasher)
    (olds news : List (List Nat)) :
    r1.hash s = r2.hash s
    ∧ recipeIdentity r1 = recipeIdentity r2
    ∧ recipeIdentity r1 ∈
        (reconcile (recipeIdentity r1 :: olds) (recipeIdentity r2 :: news)).2.2
    ∧ recipeIdentity r1 ∉
        (reconcile (recipeIdentity r1 :: olds) (recipeIdentity r2 :: news)).1 := by
  refine ⟨rfl, rfl, ?_, ?_⟩
  · simp [reconcile, recipeIdentity, ParameterUpdatesRecipe.hash, List.mem_filter]
  · simp [reconcile, recipeIdentity, ParameterUpdatesRecipe.hash, List.mem_filter]

/-- C10: for every `Message::ParameterUpdate`,
`IcedEditorWrapperApplication::update` returns `Task::none()` and leaves the
wrapped editor's state unchanged; only `Message::EditorMessage` values are
forwarded to the inner editor's `update` function. -/
theorem wrapper_parameter_update_pure {Est Em : Type}
    (editorUpdate : Est → Em → Est × MTask Em)
    (self : IcedEditorWrapperApplication Est) :
    self.update editorUpdate WMessage.parameterUpdate = (self, MTask.none)
    ∧ ∀ m : Em,
        (self.update editorUpdate (WMessage.editorMessage m)).1.editor
            = (editorUpdate self.editor m).1
        ∧ (self.update editorUpdate (WMessage.editorMessage m)).2
            = (editorUpdate self.editor m).2.map WMessage.editorMessage :=
  ⟨rfl, fun _ => ⟨rfl, rfl⟩⟩

/-- C2 counterexample: invoking the dispatcher with `Action::Exit` does not
fail fast with a not-implemented signal; it performs a best-effort host
window close. -/
theorem run_action_exit_counterexample :
    runAction exState (Action.exit : Action Nat Nat) =
      some (exState, { windowOps := [WindowOp.close] })
    ∧ runAction exState (Action.exit : Action Nat Nat) ≠ none :=
  ⟨rfl, fun h => Option.noConfusion h⟩

/-- C2 amended: only a `Reload` action makes the dispatcher fail fast with an
explicit not-implemented signal (`todo!`); an `Exit` action is performed as a
best-effort host window close instead. -/
theorem run_action_reload_unimplemented {A M E T W Sz : Type}
    (st : DriverState A M E T W Sz) :
    runAction st (Action.reload : Action M Sz) = none
    ∧ runAction st (Action.exit : Action M Sz) =
        some (st, { windowOps := [WindowOp.close] }) :=
  ⟨rfl, rfl⟩

/-- C1 counterexample: a `WillClose` event with a registered close-message
callback returning `None` still runs one update cycle (not zero) before the
loop terminates. -/
theorem will_close_none_counterexample :
    (step exWorld false exCloseState RuntimeEvent.willClose).2.updateCycles.length = 1
    ∧ ¬ (step exWorld false exCloseState
          RuntimeEvent.willClose).2.updateCycles.length = 0 :=
  ⟨rfl, fun h => Nat.noConfusion h⟩

/-- C1 amended: when the driver receives a `WillClose` event and a
close-message callback is registered, exactly one update cycle (user update,
window-state resynchronization, tree rebuild) runs before the loop
terminates, consuming the pending messages plus the callback's message when
it returns `Some(msg)` (and nothing extra when it returns `None`); zero
update cycles run only when no close callback is registered. -/
theorem will_close_update_cycle {A M E RE T Ca W Sz : Type}
    (w : World A M E RE T Ca W Sz) (ar : Bool) (st : DriverState A M E T W Sz) :
    (step w ar st RuntimeEvent.willClose).2.updateCycles =
      (match st.subs.on_window_will_close with
       | some callback => [st.messages ++ (callback ()).toList]
       | none => [])
    ∧ (step w ar st RuntimeEvent.willClose).2.rebuilds =
      (match st.subs.on_window_will_close with
       | some _ => 1
       | none => 0)
    ∧ (step w ar st RuntimeEvent.willClose).1.isTerminated = true := by
  refine ⟨?_, ?_, ?_⟩
  · cases h : st.subs.on_window_will_close with
    | none => simp [step, willCloseStep, h]
    | some callback =>
        simp only [step, willCloseStep, h]
        cases hc : callback () <;> simp [hc, Option.toList]
  · cases h : st.subs.on_window_will_close with
    | none => simp [step, willCloseStep, h]
    | some callback => simp [step, willCloseStep, h]
  · cases h : st.subs.on_window_will_close with
    | none => simp [step, willCloseStep, StepResult.isTerminated, h]
    | some callback => simp [step, willCloseStep, StepResult.isTerminated, h]

/-- In the result of a frame tick, the `did_process_event` flag can only be
raised if it already was, and then the event queue is untouched. -/
theorem frameTick_flag {A M E RE T Ca W Sz : Type}
    (w : World A M E RE T Ca W Sz) (ar : Bool) (st : DriverState A M E T W Sz) :
    (frameTick w ar st).1.did_process_event = true →
      st.did_process_event = true ∧ (frameTick w ar st).1.events = st.events := by
  simp only [frameTick]
  split
  · exact fun hd => ⟨hd, rfl⟩
  · split <;> split <;> (intro hd; exact absurd hd (by simp))

/-- Anatomy of one `PresentRequest` iteration: the window state, the queues,
the flags other than `redraw_requested`, and the application are untouched;
relayouts and reconfigurations coincide, happen at most once, happen only
when the viewport version changed since the last presented frame, and update
the recorded version exactly then. -/
theorem presentStep_fields {A M E RE T Ca W Sz : Type}
    (w : World A M E RE T Ca W Sz) (ar : Bool)
    (s s' : DriverState A M E T W Sz) (tr : Trace M E Sz)
    (h : presentStep w ar s = some (s', tr)) :
    s'.win = s.win ∧ s'.did_process_event = s.did_process_event
    ∧ s'.events = s.events ∧ s'.app = s.app ∧ s'.messages = s.messages
    ∧ tr.relayouts = tr.configures ∧ tr.configures ≤ 1
    ∧ (0 < tr.configures → s.viewport_version ≠ w.viewportVersion s.win)
    ∧ (0 < tr.configures → s'.viewport_version = w.viewportVersion s.win)
    ∧ (tr.configures = 0 → s'.viewport_version = s.viewport_version) := by
  simp only [presentStep] at h
  split at h
  · simp only [Option.some.injEq, Prod.mk.injEq] at h
    obtain ⟨h1, h2⟩ := h
    subst h1; subst h2
    simp
  · split at h
    · simp only [Option.some.injEq, Prod.mk.injEq] at h
      obtain ⟨h1, h2⟩ := h
      subst h1; subst h2
      simp
    · by_cases hv : s.viewport_version ≠ w.viewportVersion s.win
      · rw [if_pos hv] at h
        simp only [] at h
        split at h
        · simp only [Option.some.injEq, Prod.mk.injEq] at h
          obtain ⟨h1, h2⟩ := h
          subst h1; subst h2
          exact ⟨rfl, rfl, rfl, rfl, rfl, rfl, Nat.le_refl 1,
            fun _ => hv, fun _ => rfl, fun hc => absurd hc (by simp)⟩
        · exact absurd h (by simp)
        · simp only [Option.some.injEq, Prod.mk.injEq] at h
          obtain ⟨h1, h2⟩ := h
          subst h1; subst h2
          exact ⟨rfl, rfl, rfl, rfl, rfl, rfl, Nat.le_refl 1,
            fun _ => hv, fun _ => rfl, fun hc => absurd hc (by simp)⟩
      · rw [if_neg hv] at h
        simp only [] at h
        split at h
        · simp only [Option.some.injEq, Prod.mk.injEq] at h
          obtain ⟨h1, h2⟩ := h
          subst h1; subst h2
          exact ⟨rfl, rfl, rfl, rfl, rfl, rfl, Nat.zero_le 1,
            fun hc => absurd hc (by simp), fun hc => absurd hc (by simp),
            fun _ => rfl⟩
        · exact absurd h (by simp)
        · simp only [Option.some.injEq, Prod.mk.injEq] at h
          obtain ⟨h1, h2⟩ := h
          subst h1; subst h2
          exact ⟨rfl, rfl, rfl, rfl, rfl, rfl, Nat.zero_le 1,
            fun hc => absurd hc (by simp), fun hc => absurd hc (by simp),
            fun _ => rfl⟩

/-- The `did_process_event` flag is only ever raised together with a
non-empty event queue: every loop iteration preserves the invariant
`did_process_event → events ≠ []`. This justifies assuming that invariant
about any state the loop can reach. -/
theorem step_preserves_input_event_flag {A M E RE T Ca W Sz : Type}
    (w : World A M E RE T Ca W Sz) (ar : Bool)
    (st st' : DriverState A M E T W Sz) (ev : RuntimeEvent M RE Sz)
    (hinv : st.did_process_event = true → st.events ≠ [])
    (hst : (step w ar st ev).1.stateOf = some st') :
    st'.did_process_event = true → st'.events ≠ [] := by
  cases ev with
  | mainEventsCleared =>
      simp only [step, StepResult.stateOf, Option.some.injEq] at hst
      subst hst
      intro hd
      obtain ⟨hd0, hev0⟩ := frameTick_flag w ar st hd
      rw [hev0]
      exact hinv hd0
  | userEvent action =>
      cases action <;>
        simp only [step, runAction, StepResult.stateOf, Option.some.injEq,
          reduceCtorEq] at hst <;>
        first
          | (subst hst; exact hinv)
          | exact hst.elim
  | redrawRequested =>
      simp only [step] at hst
      cases hp : presentStep w ar st with
      | none => rw [hp] at hst; exact absurd hst (by simp [StepResult.stateOf])
      | some r =>
          rw [hp] at hst
          simp only [StepResult.stateOf, Option.some.injEq] at hst
          subst hst
          obtain ⟨_, hd, hev, _⟩ := presentStep_fields w ar st r.1 r.2 (by rw [hp])
          rw [hd, hev]
          exact hinv
  | baseview event do_send_status =>
      simp only [step, baseviewStep, StepResult.stateOf, Option.some.injEq] at hst
      split at hst <;> subst hst
      · exact fun hd => hinv hd
      · next hne =>
          exact fun _ hemp => hne (List.isEmpty_iff.mpr hemp)
  | willClose =>
      simp only [step, willCloseStep, StepResult.stateOf] at hst
      split at hst <;>
        (simp only [Option.some.injEq] at hst; subst hst; exact hinv)

/-- C3: at a `FrameTick` (`MainEventsCleared`) event, if no input events are
queued, no messages are queued (even after the frame-tick callback ran), and
forced-redraw mode is off, then — given the loop invariant that
`did_process_event` is only raised with a non-empty event queue — the
iteration performs no widget-tree rebuild, no message dispatch, and no
broadcast, and the driver state (application state, widget tree, window
state, queues, flags) is entirely unchanged. -/
theorem frame_tick_idle_skip {A M E RE T Ca W Sz : Type}
    (w : World A M E RE T Ca W Sz) (ar : Bool) (st : DriverState A M E T W Sz)
    (hinv : st.did_process_event = true → st.events ≠ [])
    (hev : st.events = [])
    (hmsg : messagesAfterFrameTick st = [])
    (har : ar = false) :
    step w ar st RuntimeEvent.mainEventsCleared = (.running st, {}) := by
  have hdpe : st.did_process_event = false := by
    cases hd : st.did_process_event
    · rfl
    · exact absurd hev (hinv hd)
  have hm : st.messages = [] := by
    unfold messagesAfterFrameTick at hmsg
    cases h : st.subs.on_frame with
    | none => rw [h] at hmsg; exact hmsg
    | some callback =>
        rw [h] at hmsg
        simp only [] at hmsg
        cases hc : callback () with
        | none => rw [hc] at hmsg; exact hmsg
        | some m => rw [hc] at hmsg; simp at hmsg
  simp only [step, frameTick, hmsg, hev, hdpe, har, List.isEmpty_nil,
    Bool.not_false, Bool.and_true, Bool.and_self, if_true, reduceIte]
  rw [← hm, ← hev, ← hdpe]

/-- C3 witness: a concrete idle state at a frame tick is left untouched. -/
theorem frame_tick_idle_skip_witness :
    exState.events = ([] : List Nat)
    ∧ messagesAfterFrameTick exState = ([] : List Nat)
    ∧ step exWorld false exState RuntimeEvent.mainEventsCleared =
        (.running exState, {}) :=
  ⟨rfl, rfl,
   frame_tick_idle_skip exWorld false exState (fun h => absurd h (by decide))
     rfl rfl rfl⟩

/-- C4: surface reconfiguration and relayout at `PresentRequest` are gated by
the viewport version: across two consecutive `RedrawRequested` iterations
(between which nothing changes the window state), at most one relayout and
one `configure_surface` call occur in total, and a reconfiguration happens
in an iteration only when the current viewport version differs from the last
presented one. -/
theorem viewport_version_gates_reconfigure {A M E RE T Ca W Sz : Type}
    (w : World A M E RE T Ca W Sz) (ar : Bool)
    (st st1 st2 : DriverState A M E T W Sz) (tr1 tr2 : Trace M E Sz)
    (h1 : presentStep w ar st = some (st1, tr1))
    (h2 : presentStep w ar st1 = some (st2, tr2)) :
    tr1.relayouts + tr2.relayouts ≤ 1
    ∧ tr1.configures + tr2.configures ≤ 1
    ∧ (0 < tr1.configures → st.viewport_version ≠ w.viewportVersion st.win)
    ∧ (0 < tr2.configures → st1.viewport_version ≠ w.viewportVersion st1.win) := by
  obtain ⟨hw1, -, -, -, -, hrc1, hc1, hg1, hv1, hz1⟩ :=
    presentStep_fields w ar st st1 tr1 h1
  obtain ⟨hw2, -, -, -, -, hrc2, hc2, hg2, hv2, hz2⟩ :=
    presentStep_fields w ar st1 st2 tr2 h2
  have key : tr1.configures = 0 ∨ tr2.configures = 0 := by
    by_cases hzero : tr1.configures = 0
    · exact Or.inl hzero
    · refine Or.inr ?_
      by_contra hnz
      have e1 : st1.viewport_version = w.viewportVersion st.win :=
        hv1 (Nat.pos_of_ne_zero hzero)
      have e2 : st1.viewport_version ≠ w.viewportVersion st1.win :=
        hg2 (Nat.pos_of_ne_zero hnz)
      rw [hw1] at e2
      exact e2 e1
  refine ⟨?_, ?_, fun hp => hg1 hp, fun hp => hg2 hp⟩
  · rw [hrc1, hrc2]
    rcases key with k | k <;> omega
  · rcases key with k | k <;> omega

/-- C4 witness: presenting twice from a state whose viewport version changed
produces exactly one relayout and one reconfiguration in total. -/
theorem viewport_version_gates_reconfigure_witness :
    presentStep exWorld false exPresentState =
      some ({ exPresentState with tree := 1, viewport_version := 5 },
        { relayouts := 1, configures := 1, presents := 1 })
    ∧ presentStep exWorld false
        { exPresentState with tree := 1, viewport_version := 5 } =
      some ({ exPresentState with tree := 1, viewport_version := 5 },
        { presents := 1 })
    ∧ 1 + 0 ≤ 1 ∧ 1 + 0 ≤ 1 :=
  have h1 : presentStep exWorld false exPresentState =
      some ({ exPresentState with tree := 1, viewport_version := 5 },
        { relayouts := 1, configures := 1, presents := 1 }) := rfl
  have h2 : presentStep exWorld false
      { exPresentState with tree := 1, viewport_version := 5 } =
      some ({ exPresentState with tree := 1, viewport_version := 5 },
        { presents := 1 }) := rfl
  ⟨h1, h2,
   (viewport_version_gates_reconfigure exWorld false exPresentState _ _ _ _ h1 h2).1,
   (viewport_version_gates_reconfigure exWorld false exPresentState _ _ _ _ h1 h2).2.1⟩

/-- C5: at `PresentRequest` (with the redraw gate open and a non-degenerate
physical size), if the compositor reports the fatal `OutOfMemory` error the
process panics (no recovery); on any other error the loop continues without
surfacing an error and the redraw-requested flag is true afterwards. -/
theorem present_error_handling {A M E RE T Ca W Sz : Type}
    (w : World A M E RE T Ca W Sz) (ar : Bool) (st : DriverState A M E T W Sz)
    (hgate : (st.redraw_requested || ar) = true)
    (hsize : ¬ ((w.physicalSize st.win).1 = 0 ∨ (w.physicalSize st.win).2 = 0)) :
    ((∀ t, w.present t st.win = PresentResult.outOfMemory) →
        presentStep w ar st = none)
    ∧ ((∀ t, w.present t st.win = PresentResult.otherError) →
        ∃ p, presentStep w ar st = some p ∧ p.1.redraw_requested = true) := by
  constructor
  · intro hoom
    simp only [presentStep, hgate, Bool.not_true]
    rw [if_neg (by simp)]
    rw [if_neg (by simpa using hsize)]
    by_cases hv : st.viewport_version ≠ w.viewportVersion st.win
    · rw [if_pos hv]
      simp only []
      rw [hoom (w.relayout st.tree st.win)]
    · rw [if_neg hv]
      simp only []
      rw [hoom st.tree]
  · intro herr
    simp only [presentStep, hgate, Bool.not_true]
    rw [if_neg (by simp)]
    rw [if_neg (by simpa using hsize)]
    by_cases hv : st.viewport_version ≠ w.viewportVersion st.win
    · rw [if_pos hv]
      simp only []
      rw [herr (w.relayout st.tree st.win)]
      exact ⟨_, rfl, rfl⟩
    · rw [if_neg hv]
      simp only []
      rw [herr st.tree]
      exact ⟨_, rfl, rfl⟩

/-- C5 witness: a fatal out-of-memory present panics; a transient present
error keeps the loop running with the redraw flag raised. -/
theorem present_error_handling_witness :
    (exPresentState.redraw_requested || false) = true
    ∧ presentStep exWorldOOM false exPresentState = none
    ∧ ∃ p, presentStep exWorldErr false exPresentState = some p
        ∧ p.1.redraw_requested = true :=
  ⟨rfl,
   (present_error_handling exWorldOOM false exPresentState rfl
       (by decide)).1 (fun t => rfl),
   (present_error_handling exWorldErr false exPresentState rfl
       (by decide)).2 (fun t => rfl)⟩

/-- C6: for every batch of queued input events dispatched at a frame tick,
the `(event, status)` pairs broadcast to the subscription runtime's
interaction channel are exactly the queued events in their original order
(assuming the widget tree honours its contract of one status per event): as
many pairs as events, the i-th pair carrying the i-th event. -/
theorem event_broadcast_order {A M E RE T Ca W Sz : Type}
    (w : World A M E RE T Ca W Sz) (ar : Bool) (st : DriverState A M E T W Sz)
    (hlen : (w.uiUpdate st.tree st.win st.events).statuses.length
      = st.events.length) :
    (frameTick w ar st).2.broadcasts.map Prod.fst = st.events
    ∧ (frameTick w ar st).2.broadcasts.length = st.events.length := by
  have main : (frameTick w ar st).2.broadcasts.map Prod.fst = st.events := by
    simp only [frameTick]
    split
    · next hcond =>
        have he : st.events = [] := by
          simp only [Bool.and_eq_true] at hcond
          exact List.isEmpty_iff.mp (by tauto)
        simp [he]
    · split
      · next hemp =>
          have he : st.events = [] := List.isEmpty_iff.mp hemp
          split <;> simp [he]
      · split <;>
          (simp only []
           exact List.map_fst_zip _ _ (le_of_eq hlen.symm))
  refine ⟨main, ?_⟩
  have hl := congrArg List.length main
  rw [List.length_map] at hl
  exact hl

/-- C6 witness: two queued events produce exactly two broadcast pairs in the
original order. -/
theorem event_broadcast_order_witness :
    (exWorld.uiUpdate exEventsState.tree exEventsState.win
        exEventsState.events).statuses.length = exEventsState.events.length
    ∧ (frameTick exWorld false exEventsState).2.broadcasts.map Prod.fst = [7, 8]
    ∧ (frameTick exWorld false exEventsState).2.broadcasts.length = 2 :=
  ⟨rfl,
   (event_broadcast_order exWorld false exEventsState rfl).1,
   (event_broadcast_order exWorld false exEventsState rfl).2⟩

/-- C9: every window size published through the `ResizeHandle` widget's
`on_resize` callback satisfies `width ≥ min_width` and `height ≥ min_height`
(each accumulated cursor-move delta is clamped below by the minimum on each
axis before any message is emitted), and `ResizeHandle::new` defaults the
minimum to 400 × 300. -/
theorem resize_handle_min_size (self : ResizeHandle) (state : RHState)
    (event : RHEvent) (cursor : Option RPoint) (bounds : RRect) :
    (∀ s ∈ (self.update state event cursor bounds).2,
        self.min_width ≤ s.width ∧ self.min_height ≤ s.height)
    ∧ ∀ cs : RSize, (ResizeHandle.new cs).min_width = 400
        ∧ (ResizeHandle.new cs).min_height = 300 := by
  refine ⟨?_, fun cs => ⟨rfl, rfl⟩⟩
  intro s hs
  cases event with
  | leftPressed =>
      cases cursor with
      | none => simp [ResizeHandle.update] at hs
      | some cp =>
          by_cases hb : bounds.contains cp = true <;>
            simp [ResizeHandle.update, hb] at hs
  | leftReleased =>
      by_cases hd : state.drag_active = true <;>
        simp [ResizeHandle.update, hd] at hs
  | cursorMoved =>
      by_cases hd : state.drag_active = true
      · cases cursor with
        | none => simp [ResizeHandle.update, hd] at hs
        | some cp =>
            simp only [ResizeHandle.update, hd, if_true] at hs
            split at hs
            · simp only [List.mem_singleton] at hs
              subst hs
              exact ⟨le_max_right _ _, le_max_right _ _⟩
            · simp at hs
      · simp [ResizeHandle.update, hd] at hs
  | otherEvent => simp [ResizeHandle.update] at hs

/-- A resize handle with the default 400 × 300 minimum. -/
def exHandle : ResizeHandle := ResizeHandle.new { width := 400, height := 300 }

/-- A drag in progress from window size 400 × 300, cursor last at the
origin. -/
def exDragState : RHState :=
  { drag_active := true
    start_size := { width := 400, height := 300 }
    last_cursor := { x := 0, y := 0 }
    accumulated_size := { width := 400, height := 300 }
    last_emitted_size := { width := 400, height := 300 } }

/-- C9 witness: a 10 × 10 cursor-move drag publishes the size 410 × 310,
which satisfies the 400 × 300 minimum. -/
theorem resize_handle_min_size_witness :
    ({ width := 410, height := 310 } : RSize) ∈
      (exHandle.update exDragState RHEvent.cursorMoved
        (some { x := 10, y := 10 })
        { x := 0, y := 0, width := 20, height := 20 }).2
    ∧ exHandle.min_width ≤ (410 : ℚ) ∧ exHandle.min_height ≤ (310 : ℚ) :=
  have hmem : ({ width := 410, height := 310 } : RSize) ∈
      (exHandle.update exDragState RHEvent.cursorMoved
        (some { x := 10, y := 10 })
        { x := 0, y := 0, width := 20, height := 20 }).2 := by
    simp only [ResizeHandle.update, exHandle, exDragState, ResizeHandle.new]
    norm_num
  ⟨hmem,
   (resize_handle_min_size exHandle exDragState RHEvent.cursorMoved
       (some { x := 10, y := 10 })
       { x := 0, y := 0, width := 20, height := 20 }).1 _ hmem⟩

end NihPlugIced
